import Mathlib

/-!
# Verification of the JTOK embedded JSON tokenizer

Shallow embedding of the jtok tokenizer (src/JTOK/src/jtok.c,
src/JTOK/src/jtok_object.c) and the parts of the library whose sources are
not in the repository snapshot (jtok.h, jtok_shared.c, jtok_string.c,
jtok_primitive.c, jtok_array.c), which are modelled from the specification
where needed.

Modelling conventions:
- C strings are `List Char` without embedded NUL; reading one past the end of
  a buffer yields the NUL terminator (`cAt`).
- Token pointers are (pool, index) pairs; the pool is a `List jtok_tkn`.
- `int` index fields are `Int` with the sentinel value -1; byte offsets that
  are always non-negative are `Nat`.
- Out-of-bounds reads return a default (zeroed) token, out-of-bounds writes
  are no-ops; no theorem below depends on an out-of-bounds access.
-/

/-- Token types, from the JTOK_TYPE_t enum (jtok.h is not under src/; the
five member names appear in jtok.c's jtok_tkn_type_names table). -/
inductive JTOK_TYPE_t where
  | JTOK_PRIMITIVE
  | JTOK_OBJECT
  | JTOK_ARRAY
  | JTOK_STRING
  | JTOK_UNASSIGNED_TOKEN
deriving DecidableEq

open JTOK_TYPE_t

/-- Parse status codes, from the JTOK_PARSE_STATUS_t enum (names as they
appear in jtok.c's jtokerr_messages table plus NULL_PARAM and
NEST_DEPTH_EXCEEDED which appear in jtok.c / jtok_object.c). -/
inductive JTOK_PARSE_STATUS_t where
  | JTOK_PARSE_STATUS_OK
  | JTOK_PARSE_STATUS_UNKNOWN_ERROR
  | JTOK_PARSE_STATUS_NOMEM
  | JTOK_PARSE_STATUS_INVAL
  | JTOK_PARSE_STATUS_NULL_PARAM
  | JTOK_PARSE_STATUS_PARTIAL_TOKEN
  | JTOK_PARSE_STATUS_KEY_NO_VAL
  | JTOK_PARSE_STATUS_COMMA_NO_KEY
  | JTOK_PARSE_STATUS_OBJECT_INVALID_PARENT
  | JTOK_PARSE_STATUS_INVALID_PRIMITIVE
  | JTOK_PARSE_STATUS_NON_OBJECT
  | JTOK_PARSE_STATUS_INVALID_START
  | JTOK_PARSE_STATUS_INVALID_END
  | JTOK_PARSE_STATUS_OBJ_NOKEY
  | JTOK_STATUS_MIXED_ARRAY
  | JTOK_PARSE_STATUS_ARRAY_SEPARATOR
  | JTOK_PARSE_STATUS_STRAY_COMMA
  | JTOK_PARSE_STATUS_VAL_NO_COLON
  | JTOK_PARSE_STATUS_KEY_MULTIPLE_VAL
  | JTOK_PARSE_STATUS_INVALID_PARENT
  | JTOK_PARSE_STATUS_VAL_NO_COMMA
  | JTOK_PARSE_STATUS_NON_ARRAY
  | JTOK_PARSE_STATUS_EMPTY_KEY
  | JTOK_PARSE_STATUS_NEST_DEPTH_EXCEEDED
deriving DecidableEq

open JTOK_PARSE_STATUS_t

/-- Modelled from the spec (jtok.h is not under src/): sentinel index values
"distinguishable from any legal index"; all are -1 here. -/
def NO_PARENT_IDX : Int := -1

/-- Modelled from the spec (jtok.h is not under src/): sentinel sibling index. -/
def NO_SIBLING_IDX : Int := -1

/-- Modelled from the spec (jtok.h is not under src/): sentinel last-child index. -/
def NO_CHILD_IDX : Int := -1

/-- Modelled from the spec (jtok.h is not under src/): the INVALID_ARRAY_INDEX
sentinel used both for "no such key" in jtok_obj_has_key and for a not yet
closed token's end field. -/
def INVALID_ARRAY_INDEX : Int := -1

/-- Modelled from the spec (jtok.h is not under src/): NEST_DEPTH, the
implementation-defined maximum recursion depth. The exact value does not
matter to any theorem below; the inputs used never nest deeper than 2. -/
def JTOK_MAX_RECURSE_DEPTH : Nat := 32

/-- The token record, from the spec's data-model table (jtok.h is not under
src/; field names as used throughout jtok.c and jtok_object.c).
The opaque json handle is `Option (List Char)` (None models a NULL handle);
the pool handle is passed separately where a function follows links. -/
structure jtok_tkn where
  type : JTOK_TYPE_t
  start : Nat
  end_ : Int
  size : Nat
  parent : Int
  sibling : Int
  json : Option (List Char)
deriving DecidableEq

instance : Inhabited jtok_tkn :=
  ⟨{ type := JTOK_UNASSIGNED_TOKEN, start := 0, end_ := 0, size := 0,
     parent := 0, sibling := 0, json := none }⟩

/-- Modelled from the spec (jtok.h is not under src/): sizeof(jtok_tkn_t) on a
32-bit target (eight 4-byte fields: type, start, end, size, parent, sibling,
json, pool). Only jtok_obj_has_key's index division reads this value, and any
value greater than 3 yields the same results on every input used below. -/
def jtok_tkn_sizeof : Nat := 32

/-- The parse context, from jtok_parser_t as initialized in jtok_new_parse_ctx
(jtok.c lines 412-425). -/
structure jtok_parser_t where
  pos : Nat
  toknext : Nat
  toksuper : Int
  json : List Char
  json_len : Nat
  last_child : Int
  tkn_pool : List jtok_tkn
  pool_size : Nat
deriving DecidableEq

/-- The NUL terminator byte. -/
def NUL : Char := Char.ofNat 0

/-- Read a byte of a NUL-terminated buffer: positions at or past the end read
the terminator. -/
def cAt (json : List Char) (i : Nat) : Char := json.getD i NUL

/-- Dereference a token pointer given as (pool, non-negative index). -/
def tokAtN (pool : List jtok_tkn) (i : Nat) : jtok_tkn := pool.getD i default

/-- Dereference a token pointer given as (pool, int index). A negative index
is undefined behaviour in C; it yields the default token here. -/
def tokAtI (pool : List jtok_tkn) (i : Int) : jtok_tkn :=
  if 0 ≤ i then pool.getD i.toNat default else default

/-- Write through a token pointer given as (pool, int index); a store through
a negative or out-of-range index is a no-op (no verified path performs one). -/
def setTokI (pool : List jtok_tkn) (i : Int) (f : jtok_tkn → jtok_tkn) : List jtok_tkn :=
  if 0 ≤ i then pool.set i.toNat (f (tokAtN pool i.toNat)) else pool

/-- C-locale isspace: space, \t, \n, \v, \f, \r (used by jtok_parse's
leading-whitespace skip, jtok.c line 309). -/
def isspaceC (c : Char) : Bool :=
  c = ' ' ∨ c = '\t' ∨ c = '\n' ∨ c = Char.ofNat 11 ∨ c = Char.ofNat 12 ∨ c = '\r'

/-- The fifteen primitive lead characters of the object parser's switch
(jtok_object.c lines 396-410). -/
def isPrimitiveLead (c : Char) : Bool :=
  c = '+' ∨ c = '-' ∨ c = '0' ∨ c = '1' ∨ c = '2' ∨ c = '3' ∨ c = '4' ∨
  c = '5' ∨ c = '6' ∨ c = '7' ∨ c = '8' ∨ c = '9' ∨ c = 't' ∨ c = 'f' ∨ c = 'n'

/-- The payload bytes of a token: input[start .. end). -/
def payloadOf (t : jtok_tkn) : List Char :=
  ((t.json.getD []).take t.end_.toNat).drop t.start

/-- jtok_toklen (jtok.c lines 135-148): end - start computed in uint_least64_t
(wrap-around on a negative difference), reported only when below UINT16_MAX.
The token is always non-null in this model. -/
def jtok_toklen (tok : jtok_tkn) : Nat :=
  let d : Nat := (((tok.end_ : Int) - (tok.start : Int)) % (2 : Int) ^ 64).toNat
  if d < 65535 then d else 0

/-- strncmp(a, b, n) == 0 for NUL-terminated buffers modelled as lists (the
terminator is the virtual byte past the end of the list): equal up to the
first NUL or the n-byte bound. -/
def strncmpEq : List Char → List Char → Nat → Bool
  | _, _, 0 => true
  | a, b, n + 1 =>
    let ca := a.headD NUL
    let cb := b.headD NUL
    if ca ≠ cb then false
    else if ca = NUL then true
    else strncmpEq a.tail b.tail n

/-- jtok_tokcmp (jtok.c lines 151-189). The comparison bound is the larger of
the token length and strlen(str); str and the token's json handle may be NULL.
(uint_least16_t is at least 16 bits wide; no string used below approaches
that bound, so lengths are not truncated here.) -/
def jtok_tokcmp (str : Option (List Char)) (tok : jtok_tkn) : Bool :=
  match str, tok.json with
  | none, tj => tj.isNone
  | some _, none => false
  | some s, some j =>
    let least_size :=
      let ls := jtok_toklen tok
      let slen := s.length
      if ls < slen then slen else ls
    strncmpEq s (j.drop tok.start) least_size

/-- Whether the tokcmp_funcs dispatch table (jtok.c lines 61-66) holds a
non-NULL comparator for a type: the designated initializers populate exactly
the four assigned types. -/
def tokcmp_funcs_defined : JTOK_TYPE_t → Bool
  | JTOK_PRIMITIVE => true
  | JTOK_OBJECT => true
  | JTOK_ARRAY => true
  | JTOK_STRING => true
  | JTOK_UNASSIGNED_TOKEN => false

/-- jtok_toktokcmp (jtok.c lines 362-370). The C function executes
"return tokcmp_funcs[tkn1->type];": it returns the dispatched FUNCTION POINTER
converted to bool (true iff the table entry is non-NULL) instead of calling
it. Token pointers are modelled as (pool, index) pairs. -/
def jtok_toktokcmp (pool1 : List jtok_tkn) (i1 : Nat)
    (pool2 : List jtok_tkn) (i2 : Nat) : Bool :=
  if (tokAtN pool1 i1).type = (tokAtN pool2 i2).type then
    tokcmp_funcs_defined (tokAtN pool1 i1).type
  else false

/-- Modelled from the spec (jtok_primitive.c is not under src/): equality of
two PRIMITIVE tokens is byte-wise equality over [start, end). -/
def jtok_toktokcmp_primitive (pool1 : List jtok_tkn) (i1 : Nat)
    (pool2 : List jtok_tkn) (i2 : Nat) : Bool :=
  payloadOf (tokAtN pool1 i1) == payloadOf (tokAtN pool2 i2)

/-- Modelled from the spec (jtok_string.c is not under src/): equality of two
STRING tokens is byte-wise equality over [start, end). -/
def jtok_toktokcmp_string (pool1 : List jtok_tkn) (i1 : Nat)
    (pool2 : List jtok_tkn) (i2 : Nat) : Bool :=
  payloadOf (tokAtN pool1 i1) == payloadOf (tokAtN pool2 i2)

/-- The j loop of jtok_toktokcmp_object (jtok_object.c lines 548-594): search
obj2's key chain for the current key of obj1, comparing keys and values with
jtok_toktokcmp. Returns (is_equal, final j). Arguments: c2 is the current
child2 index, j the loop counter, the last argument counts the remaining
iterations (size2 - j). -/
def jtok_objcmp_jloop (pool1 : List jtok_tkn) (c1 : Nat) (pool2 : List jtok_tkn) :
    Nat → Nat → Nat → Bool × Nat
  | _, j, 0 => (true, j)
  | c2, j, rem + 1 =>
    if jtok_toktokcmp pool1 c1 pool2 c2 then
      if jtok_toktokcmp pool1 (c1 + 1) pool2 (c2 + 1) then (true, j)
      else (false, j + 1)
    else
      if (tokAtN pool2 c2).sibling = NO_SIBLING_IDX then (false, j)
      else jtok_objcmp_jloop pool1 c1 pool2 (tokAtN pool2 c2).sibling.toNat (j + 1) rem

/-- The i loop of jtok_toktokcmp_object (jtok_object.c lines 542-609): match
every key of obj1 against obj2. Arguments: c1 is the current child1 index,
the last argument counts the remaining iterations. -/
def jtok_objcmp_iloop (pool1 : List jtok_tkn) (pool2 : List jtok_tkn)
    (c2start : Nat) (size2 : Nat) : Nat → Nat → Bool
  | _, 0 => true
  | c1, rem + 1 =>
    let r := jtok_objcmp_jloop pool1 c1 pool2 c2start 0 size2
    if ¬ r.1 then false
    else if r.2 = size2 then false
    else jtok_objcmp_iloop pool1 pool2 c2start size2 (tokAtN pool1 c1).sibling.toNat rem

/-- jtok_toktokcmp_object (jtok_object.c lines 492-613). The assert calls are
compiled out under NDEBUG and are not modelled. -/
def jtok_toktokcmp_object (pool1 : List jtok_tkn) (i1 : Nat)
    (pool2 : List jtok_tkn) (i2 : Nat) : Bool :=
  let obj1 := tokAtN pool1 i1
  let obj2 := tokAtN pool2 i2
  if obj1.type ≠ JTOK_OBJECT ∨ obj2.type ≠ JTOK_OBJECT then false
  else if obj1.size ≠ obj2.size then false
  else if obj1.size > 0 then
    jtok_objcmp_iloop pool1 pool2 (i2 + 1) obj2.size (i1 + 1) obj1.size
  else true

/-- Sibling-chain walk comparing array children pairwise (helper of the
spec-modelled array comparator). -/
def jtok_arrcmp_children (pool1 : List jtok_tkn) (pool2 : List jtok_tkn) :
    Nat → Nat → Nat → Bool
  | _, _, 0 => true
  | c1, c2, n + 1 =>
    jtok_toktokcmp pool1 c1 pool2 c2 &&
    jtok_arrcmp_children pool1 pool2
      (tokAtN pool1 c1).sibling.toNat (tokAtN pool2 c2).sibling.toNat n

/-- Modelled from the spec (jtok_array.c is not under src/): equality of two
ARRAY tokens is equal size and the ordered children compared pairwise via
toktokcmp. -/
def jtok_toktokcmp_array (pool1 : List jtok_tkn) (i1 : Nat)
    (pool2 : List jtok_tkn) (i2 : Nat) : Bool :=
  let a1 := tokAtN pool1 i1
  let a2 := tokAtN pool2 i2
  if a1.size = a2.size then jtok_arrcmp_children pool1 pool2 (i1 + 1) (i2 + 1) a1.size
  else false

/-- The type of a token-to-token comparator, over (pool, index) pointers. -/
def TokCmpFn : Type := List jtok_tkn → Nat → List jtok_tkn → Nat → Bool

/-- The tokcmp_funcs dispatch table itself (jtok.c lines 61-66): the four
designated entries hold the four comparators, every other slot is NULL. -/
def tokcmp_funcs : JTOK_TYPE_t → Option TokCmpFn
  | JTOK_PRIMITIVE => some jtok_toktokcmp_primitive
  | JTOK_OBJECT => some jtok_toktokcmp_object
  | JTOK_ARRAY => some jtok_toktokcmp_array
  | JTOK_STRING => some jtok_toktokcmp_string
  | JTOK_UNASSIGNED_TOKEN => none

theorem tokcmp_funcs_isSome (t : JTOK_TYPE_t) :
    (tokcmp_funcs t).isSome = tokcmp_funcs_defined t := by
  cases t <;> rfl

/-- isValidJson (jtok.c lines 252-286), translated statement by statement:
isValid starts false and each nested if may only set it to true, so the
checks combine as a disjunction. tcnt is uint_least8_t in C; every call site
below stays far below 255 so it is a plain Nat here. -/
def isValidJson (tokens : Option (List jtok_tkn)) (tcnt : Nat) : Bool :=
  match tokens with
  | none => false
  | some tks =>
    if 1 < tcnt then
      let v0 : Bool := decide ((tokAtN tks 0).type = JTOK_OBJECT)
      if tcnt = 2 then v0 || decide ((tokAtN tks 1).type = JTOK_ARRAY)
      else if 2 < tcnt then v0 || decide ((tokAtN tks 1).type = JTOK_STRING)
      else v0
    else false

/-- The key-chain walk of jtok_obj_has_key (jtok.c lines 383-405): at most
size iterations; on a jtok_tokcmp match the C code computes
key_idx = (key_tkn - tkns) / sizeof(jtok_tkn_t) -- the pointer difference is
already an element index, so the division is applied a second time. -/
def jtok_obj_has_key_loop (pool : List jtok_tkn) (key_str : Option (List Char)) :
    Nat → Nat → Int
  | _, 0 => INVALID_ARRAY_INDEX
  | keyIdx, n + 1 =>
    let key_tkn := tokAtN pool keyIdx
    if jtok_tokcmp key_str key_tkn then (keyIdx : Int) / (jtok_tkn_sizeof : Int)
    else if key_tkn.sibling ≠ NO_SIBLING_IDX then
      jtok_obj_has_key_loop pool key_str key_tkn.sibling.toNat n
    else INVALID_ARRAY_INDEX

/-- jtok_obj_has_key (jtok.c lines 373-409). The obj pointer is (pool, index);
the pool handle the C code reads from obj->pool is the same pool. -/
def jtok_obj_has_key (pool : List jtok_tkn) (objIdx : Nat)
    (key_str : Option (List Char)) : Int :=
  let obj := tokAtN pool objIdx
  if obj.type = JTOK_OBJECT then
    if obj.size > 0 then jtok_obj_has_key_loop pool key_str (objIdx + 1) obj.size
    else INVALID_ARRAY_INDEX
  else INVALID_ARRAY_INDEX

/-- The C function jtok_new_parser (jtok.c lines 412-425); the caller's token
array is the zero-initialized pool of the given capacity. -/
def jtok_new_parse_ctx (json_str : List Char) (poolsize : Nat) : jtok_parser_t :=
  { pos := 0, toknext := 0, toksuper := NO_PARENT_IDX, json := json_str,
    json_len := json_str.length, last_child := NO_CHILD_IDX,
    tkn_pool := List.replicate poolsize default, pool_size := poolsize }

/-- Modelled from the spec (jtok_shared.c is not under src/), section 4.2:
alloc fails when toknext equals the capacity; otherwise it initializes slot
toknext (parent = NO_PARENT, sibling = NO_SIBLING, size = 0, end = INVALID,
type = UNASSIGNED), sets the slot's opaque json handle to the input being
parsed, and increments toknext, returning the slot index. -/
def jtok_alloc_token (p : jtok_parser_t) : Option (jtok_parser_t × Nat) :=
  if p.toknext = p.pool_size then none
  else
    let idx := p.toknext
    let tok : jtok_tkn :=
      { type := JTOK_UNASSIGNED_TOKEN, start := 0, end_ := INVALID_ARRAY_INDEX,
        size := 0, parent := NO_PARENT_IDX, sibling := NO_SIBLING_IDX,
        json := some p.json }
    some ({ p with tkn_pool := p.tkn_pool.set idx tok, toknext := idx + 1 }, idx)

/-- Modelled from the spec (jtok_shared.c is not under src/): fill_token sets
the token's type, start and end, as used at jtok_object.c line 80. -/
def jtok_fill_token (p : jtok_parser_t) (idx : Nat) (ty : JTOK_TYPE_t)
    (start : Nat) (end_ : Int) : jtok_parser_t :=
  let t := tokAtN p.tkn_pool idx
  { p with tkn_pool := p.tkn_pool.set idx { t with type := ty, start := start, end_ := end_ } }

/-- Hexadecimal digit test for the \uXXXX escape. -/
def isHexC (c : Char) : Bool :=
  c.isDigit ∨ ('a' ≤ c ∧ c ≤ 'f') ∨ ('A' ≤ c ∧ c ≤ 'F')

/-- Modelled from the spec (jtok_string.c is not under src/), section 4.4:
scan the bytes after the opening quote for the matching unescaped closing
quote, validating escapes -- the legal ones are the two-character escapes
for quote, backslash, slash, b, f, n, r, t and the six-character \uXXXX with
four hex digits; any other backslash sequence is INVAL. A byte below 0x20 is
INVAL. Reaching the end of the input first is PARTIAL_TOKEN. Returns the
index of the closing quote. The last argument is the remaining iteration
budget (the scan index strictly increases, so json_len + 1 suffices). -/
def jtok_scan_string (json : List Char) (len : Nat) : Nat → Nat → Except JTOK_PARSE_STATUS_t Nat
  | _, 0 => Except.error JTOK_PARSE_STATUS_PARTIAL_TOKEN
  | i, fuel + 1 =>
    if len ≤ i then Except.error JTOK_PARSE_STATUS_PARTIAL_TOKEN
    else
      let c := cAt json i
      if c = '"' then Except.ok i
      else if c = '\\' then
        let e := cAt json (i + 1)
        if e = '"' ∨ e = '\\' ∨ e = '/' ∨ e = 'b' ∨ e = 'f' ∨ e = 'n' ∨ e = 'r' ∨ e = 't' then
          jtok_scan_string json len (i + 2) fuel
        else if e = 'u' then
          if isHexC (cAt json (i + 2)) ∧ isHexC (cAt json (i + 3)) ∧
             isHexC (cAt json (i + 4)) ∧ isHexC (cAt json (i + 5)) then
            jtok_scan_string json len (i + 6) fuel
          else Except.error JTOK_PARSE_STATUS_INVAL
        else Except.error JTOK_PARSE_STATUS_INVAL
      else if c.toNat < 0x20 then Except.error JTOK_PARSE_STATUS_INVAL
      else jtok_scan_string json len (i + 1) fuel

/-- Modelled from the spec (jtok_string.c is not under src/), section 4.4:
jtok_parse_string is entered with pos at the opening quote; on success it
allocates one STRING token with start one past the opening quote, end at the
closing quote (exclusive) and parent = toksuper. The parser position is left
ON the closing quote so that the enclosing loop's increment advances one past
it (the object parser's loop increments pos after every dispatch). -/
def jtok_parse_string (p : jtok_parser_t) : JTOK_PARSE_STATUS_t × jtok_parser_t :=
  match jtok_scan_string p.json p.json_len (p.pos + 1) (p.json_len + 1) with
  | Except.error st => (st, p)
  | Except.ok close =>
    match jtok_alloc_token p with
    | none => (JTOK_PARSE_STATUS_NOMEM, p)
    | some (p1, idx) =>
      let t := tokAtN p1.tkn_pool idx
      let p2 := { p1 with
        tkn_pool := p1.tkn_pool.set idx
          { t with type := JTOK_STRING, start := p.pos + 1, end_ := (close : Int),
                   parent := p.toksuper },
        pos := close }
      (JTOK_PARSE_STATUS_OK, p2)

/-- The primitive terminator set of spec section 4.3: comma, closing bracket,
closing brace, or whitespace (space, tab, CR, LF per section 4.5). -/
def jtok_prim_terminator (c : Char) : Bool :=
  c = ',' ∨ c = ']' ∨ c = '}' ∨ c = ' ' ∨ c = '\t' ∨ c = '\n' ∨ c = '\r'

/-- Scan forward for the first terminator byte; none before end-of-input means
a partial token. The last argument is the remaining iteration budget. -/
def jtok_find_terminator (json : List Char) (len : Nat) : Nat → Nat → Option Nat
  | _, 0 => none
  | i, fuel + 1 =>
    if len ≤ i then none
    else if jtok_prim_terminator (cAt json i) then some i
    else jtok_find_terminator json len (i + 1) fuel

/-- Consume a run of decimal digits; returns how many were consumed and the
rest of the list. -/
def spanDigits : List Char → Nat × List Char
  | [] => (0, [])
  | c :: cs =>
    if c.isDigit then
      let r := spanDigits cs
      (r.1 + 1, r.2)
    else (0, c :: cs)

/-- Modelled from the spec (jtok_primitive.c is not under src/), section 4.3:
a valid JSON number per RFC 8259 as the spec reads it -- optional leading
sign, integer part with no leading zeros except a bare 0, optional fraction,
optional exponent. -/
def jtok_is_valid_number (s0 : List Char) : Bool :=
  let s1 := match s0 with
    | [] => ([] : List Char)
    | c :: cs => if c = '+' ∨ c = '-' then cs else s0
  match s1 with
  | [] => false
  | c :: cs =>
    if ¬ c.isDigit then false
    else
      let afterInt : Option (List Char) :=
        if c = '0' then
          match cs with
          | d :: _ => if d.isDigit then none else some cs
          | [] => some []
        else some (spanDigits cs).2
      match afterInt with
      | none => false
      | some r1 =>
        let afterFrac : Option (List Char) :=
          match r1 with
          | '.' :: fs =>
            let r := spanDigits fs
            if r.1 = 0 then none else some r.2
          | _ => some r1
        match afterFrac with
        | none => false
        | some r2 =>
          let afterExp : Option (List Char) :=
            match r2 with
            | [] => some []
            | e :: es =>
              if e = 'e' ∨ e = 'E' then
                let es2 := match es with
                  | [] => ([] : List Char)
                  | sg :: ss => if sg = '+' ∨ sg = '-' then ss else es
                let r := spanDigits es2
                if r.1 = 0 then none else some r.2
              else some r2
          match afterExp with
          | none => false
          | some [] => true
          | some (_ :: _) => false

/-- Modelled from the spec (jtok_primitive.c is not under src/), section 4.3:
jtok_parse_primitive is entered with pos at the lead byte. The primitive
extends up to but not including the first terminator byte; no terminator
before end-of-input is PARTIAL_TOKEN. The captured bytes must be exactly
true, false, null or a valid number, else INVALID_PRIMITIVE. On success one
PRIMITIVE token is allocated with start = pos, end = terminator index and
parent = toksuper; the terminator is not consumed -- the parser position is
left on the last payload byte so that the enclosing loop's increment lands
on the terminator. -/
def jtok_parse_primitive (p : jtok_parser_t) : JTOK_PARSE_STATUS_t × jtok_parser_t :=
  let start := p.pos
  match jtok_find_terminator p.json p.json_len p.pos (p.json_len + 1) with
  | none => (JTOK_PARSE_STATUS_PARTIAL_TOKEN, p)
  | some term =>
    let payload := (p.json.take term).drop start
    if payload == "true".toList ∨ payload == "false".toList ∨
       payload == "null".toList ∨ jtok_is_valid_number payload then
      match jtok_alloc_token p with
      | none => (JTOK_PARSE_STATUS_NOMEM, p)
      | some (p1, idx) =>
        let t := tokAtN p1.tkn_pool idx
        let p2 := { p1 with
          tkn_pool := p1.tkn_pool.set idx
            { t with type := JTOK_PRIMITIVE, start := start, end_ := (term : Int),
                     parent := p.toksuper },
          pos := term - 1 }
        (JTOK_PARSE_STATUS_OK, p2)
    else (JTOK_PARSE_STATUS_INVALID_PRIMITIVE, p)

/-- The object parser's state machine states (jtok_object.c lines 37-43). -/
inductive objexpect where
  | OBJECT_KEY
  | OBJECT_COLON
  | OBJECT_VALUE
  | OBJECT_COMMA
deriving DecidableEq

open objexpect

/-- The outcome of one iteration of the object parser's character switch
(jtok_object.c lines 92-477):
- cont: fall through to the loop's pos increment with an updated context;
- fail: a status was set, so the loop condition fails after the increment;
- finish: a direct return statement inside the switch;
- callObject / callArray / callString / callPrimitive: the branch invokes a
  sub-parser; the post-call bookkeeping of the branch is performed by the
  loop (jtok_parse_object_loop below). callString carries whether the branch
  is the key branch (OBJECT_KEY) or the value branch (OBJECT_VALUE). -/
inductive ObjAct where
  | cont (p : jtok_parser_t) (e : objexpect)
  | fail (st : JTOK_PARSE_STATUS_t) (p : jtok_parser_t)
  | finish (st : JTOK_PARSE_STATUS_t) (p : jtok_parser_t)
  | callObject
  | callArray
  | callString (inKey : Bool)
  | callPrimitive
deriving DecidableEq

/-- The status carried by a fail or finish outcome, if any. -/
def stepStatus : ObjAct → Option JTOK_PARSE_STATUS_t
  | ObjAct.fail st _ => some st
  | ObjAct.finish st _ => some st
  | _ => none

/-- One iteration of the object parser's character switch (jtok_object.c
lines 92-477), translated case by case. start is the entry position of the
object (used by error branches that reset pos); object_token_index is the
index of the OBJECT token of this invocation. -/
def jtok_object_step (p : jtok_parser_t) (expecting : objexpect)
    (start : Nat) (object_token_index : Nat) : ObjAct :=
  let c := cAt p.json p.pos
  if c = '{' then
    match expecting with
    | OBJECT_KEY => ObjAct.fail JTOK_PARSE_STATUS_OBJ_NOKEY p
    | OBJECT_COLON => ObjAct.fail JTOK_PARSE_STATUS_VAL_NO_COLON p
    | OBJECT_VALUE => ObjAct.callObject
    | OBJECT_COMMA => ObjAct.fail JTOK_PARSE_STATUS_INVAL p
  else if c = '[' then
    match expecting with
    | OBJECT_KEY => ObjAct.fail JTOK_PARSE_STATUS_OBJ_NOKEY p
    | OBJECT_COLON => ObjAct.fail JTOK_PARSE_STATUS_VAL_NO_COLON p
    | OBJECT_VALUE => ObjAct.callArray
    | OBJECT_COMMA => ObjAct.fail JTOK_PARSE_STATUS_INVAL p
  else if c = '}' then
    match expecting with
    | OBJECT_KEY =>
      let parent_obj := tokAtN p.tkn_pool object_token_index
      if parent_obj.type ≠ JTOK_OBJECT ∨ p.toknext = 0 then
        ObjAct.finish JTOK_PARSE_STATUS_INVAL { p with pos := start }
      else
        ObjAct.finish JTOK_PARSE_STATUS_OK
          { p with
            tkn_pool := p.tkn_pool.set object_token_index
              { parent_obj with end_ := ((p.pos + 1 : Nat) : Int) },
            toksuper := parent_obj.parent }
    | OBJECT_COMMA =>
      let parent_obj := tokAtN p.tkn_pool object_token_index
      if parent_obj.type ≠ JTOK_OBJECT ∨ p.toknext = 0 then
        ObjAct.finish JTOK_PARSE_STATUS_INVAL { p with pos := start }
      else
        let pool1 := p.tkn_pool.set object_token_index
          { parent_obj with end_ := ((p.pos + 1 : Nat) : Int) }
        let pool2 :=
          if p.last_child ≠ NO_CHILD_IDX then
            setTokI pool1 p.last_child (fun t => { t with sibling := NO_SIBLING_IDX })
          else pool1
        ObjAct.finish JTOK_PARSE_STATUS_OK
          { p with tkn_pool := pool2, toksuper := parent_obj.parent,
                   last_child := NO_CHILD_IDX }
    | OBJECT_COLON => ObjAct.fail JTOK_PARSE_STATUS_KEY_NO_VAL p
    | OBJECT_VALUE => ObjAct.fail JTOK_PARSE_STATUS_KEY_NO_VAL p
  else if c = '"' then
    match expecting with
    | OBJECT_KEY =>
      if (tokAtI p.tkn_pool p.toksuper).type = JTOK_OBJECT then ObjAct.callString true
      else ObjAct.fail JTOK_PARSE_STATUS_INVALID_PARENT p
    | OBJECT_VALUE =>
      let key_tkn := tokAtI p.tkn_pool p.toksuper
      if key_tkn.type = JTOK_STRING then
        if key_tkn.size ≠ 0 then ObjAct.fail JTOK_PARSE_STATUS_KEY_MULTIPLE_VAL p
        else ObjAct.callString false
      else ObjAct.fail JTOK_PARSE_STATUS_INVALID_PARENT p
    | OBJECT_COLON => ObjAct.fail JTOK_PARSE_STATUS_VAL_NO_COLON p
    | OBJECT_COMMA => ObjAct.fail JTOK_PARSE_STATUS_VAL_NO_COMMA p
  else if c = '\t' ∨ c = '\r' ∨ c = '\n' ∨ c = ' ' then
    ObjAct.cont p expecting
  else if c = ':' then
    if expecting = OBJECT_COLON then
      ObjAct.cont { p with toksuper := (p.toknext : Int) - 1 } OBJECT_VALUE
    else ObjAct.fail JTOK_PARSE_STATUS_INVAL { p with pos := start }
  else if c = ',' then
    if expecting = OBJECT_COMMA then
      ObjAct.cont { p with toksuper := (tokAtI p.tkn_pool p.toksuper).parent } OBJECT_KEY
    else ObjAct.fail JTOK_PARSE_STATUS_OBJ_NOKEY p
  else if isPrimitiveLead c then
    if expecting = OBJECT_VALUE then
      let parent := tokAtI p.tkn_pool p.toksuper
      match parent.type with
      | JTOK_OBJECT => ObjAct.fail JTOK_PARSE_STATUS_INVAL { p with pos := start }
      | JTOK_STRING =>
        if parent.size ≠ 0 then ObjAct.fail JTOK_PARSE_STATUS_INVAL { p with pos := start }
        else ObjAct.callPrimitive
      | _ => ObjAct.fail JTOK_PARSE_STATUS_INVAL p
    else
      ObjAct.fail JTOK_PARSE_STATUS_KEY_NO_VAL
        { p with pos := (tokAtI p.tkn_pool p.toksuper).start }
  else ObjAct.fail JTOK_PARSE_STATUS_INVAL { p with pos := start }

mutual

/-- jtok_parse_object (jtok_object.c lines 22-489): depth guard, '{' check,
token allocation and initialization, then the character loop. The C path that
returns OK when the token pool pointer is NULL is unreachable through
jtok_parse (which rejects NULL pools) and is not modelled. The first argument
is recursion fuel; every recursive call strictly decreases it, and the
top-level entry supplies enough for any input (see jtok_fuel). -/
def jtok_parse_object (fuel : Nat) (p : jtok_parser_t) (depth : Nat) :
    JTOK_PARSE_STATUS_t × jtok_parser_t :=
  match fuel with
  | 0 => (JTOK_PARSE_STATUS_UNKNOWN_ERROR, p)
  | fuel + 1 =>
    if depth > JTOK_MAX_RECURSE_DEPTH then (JTOK_PARSE_STATUS_NEST_DEPTH_EXCEEDED, p)
    else if cAt p.json p.pos ≠ '{' then (JTOK_PARSE_STATUS_NON_OBJECT, p)
    else
      match jtok_alloc_token p with
      | none => (JTOK_PARSE_STATUS_NOMEM, p)
      | some (p1, idx) =>
        let start := p.pos
        let p2 := { p1 with
          tkn_pool := p1.tkn_pool.set idx
            { tokAtN p1.tkn_pool idx with parent := p1.toksuper },
          toksuper := (p1.toknext : Int) - 1 }
        let object_token_index := idx
        let p3 := jtok_fill_token p2 idx JTOK_OBJECT p2.pos INVALID_ARRAY_INDEX
        let p4 := { p3 with pos := p3.pos + 1, last_child := NO_CHILD_IDX }
        jtok_parse_object_loop fuel p4 OBJECT_KEY start object_token_index depth
termination_by structural fuel

/-- The for loop of jtok_parse_object (jtok_object.c lines 88-488) together
with the post-loop PARTIAL_TOKEN conversion (lines 480-486). Each iteration
runs the character switch (jtok_object_step) and then the loop's pos
increment; a set error status ends the loop after the increment, a direct
return ends it without the increment; the sub-parser branches perform the
branch's post-call bookkeeping here. -/
def jtok_parse_object_loop (fuel : Nat) (p : jtok_parser_t) (expecting : objexpect)
    (start : Nat) (object_token_index : Nat) (depth : Nat) :
    JTOK_PARSE_STATUS_t × jtok_parser_t :=
  match fuel with
  | 0 => (JTOK_PARSE_STATUS_UNKNOWN_ERROR, p)
  | fuel + 1 =>
    if p.pos < p.json_len ∧ cAt p.json p.pos ≠ NUL then
      match jtok_object_step p expecting start object_token_index with
      | ObjAct.cont p1 e1 =>
        jtok_parse_object_loop fuel { p1 with pos := p1.pos + 1 } e1 start
          object_token_index depth
      | ObjAct.fail st p1 => (st, { p1 with pos := p1.pos + 1 })
      | ObjAct.finish st p1 => (st, p1)
      | ObjAct.callObject =>
        let key_idx := p.toksuper
        let r := jtok_parse_object fuel p (depth + 1)
        if r.1 = JTOK_PARSE_STATUS_OK then
          let p1 :=
            if key_idx ≠ NO_PARENT_IDX then
              { r.2 with tkn_pool :=
                  setTokI r.2.tkn_pool key_idx (fun t => { t with size := t.size + 1 }) }
            else r.2
          jtok_parse_object_loop fuel
            { p1 with toksuper := key_idx, last_child := key_idx, pos := p1.pos + 1 }
            OBJECT_COMMA start object_token_index depth
        else (r.1, { r.2 with pos := r.2.pos + 1 })
      | ObjAct.callArray =>
        let key_idx := p.toksuper
        let r := jtok_parse_array fuel p (depth + 1)
        if r.1 = JTOK_PARSE_STATUS_OK then
          if key_idx ≠ NO_PARENT_IDX then
            let p1 := { r.2 with
              tkn_pool :=
                setTokI r.2.tkn_pool key_idx (fun t => { t with size := t.size + 1 }),
              last_child := key_idx }
            jtok_parse_object_loop fuel { p1 with pos := p1.pos + 1 }
              OBJECT_COMMA start object_token_index depth
          else
            (JTOK_PARSE_STATUS_INVALID_PARENT,
             { r.2 with last_child := key_idx, pos := r.2.pos + 1 })
        else (r.1, { r.2 with pos := r.2.pos + 1 })
      | ObjAct.callString true =>
        let r := jtok_parse_string p
        if r.1 = JTOK_PARSE_STATUS_OK then
          let pool1 :=
            if r.2.last_child ≠ NO_CHILD_IDX then
              setTokI r.2.tkn_pool r.2.last_child (fun t =>
                { t with sibling := (r.2.toknext : Int) - 1 })
            else r.2.tkn_pool
          let pool2 := setTokI pool1 p.toksuper (fun t => { t with size := t.size + 1 })
          jtok_parse_object_loop fuel
            { r.2 with tkn_pool := pool2, last_child := (r.2.toknext : Int) - 1,
                       pos := r.2.pos + 1 }
            OBJECT_COLON start object_token_index depth
        else (r.1, { r.2 with pos := r.2.pos + 1 })
      | ObjAct.callString false =>
        let r := jtok_parse_string p
        if r.1 = JTOK_PARSE_STATUS_OK then
          let pool1 := setTokI r.2.tkn_pool p.toksuper (fun t => { t with size := t.size + 1 })
          jtok_parse_object_loop fuel { r.2 with tkn_pool := pool1, pos := r.2.pos + 1 }
            OBJECT_COMMA start object_token_index depth
        else (r.1, { r.2 with pos := r.2.pos + 1 })
      | ObjAct.callPrimitive =>
        let r := jtok_parse_primitive p
        if r.1 = JTOK_PARSE_STATUS_OK then
          let p1 :=
            if r.2.toksuper ≠ NO_PARENT_IDX then
              { r.2 with tkn_pool :=
                  setTokI r.2.tkn_pool r.2.toksuper (fun t => { t with size := t.size + 1 }) }
            else r.2
          jtok_parse_object_loop fuel { p1 with pos := p1.pos + 1 }
            OBJECT_COMMA start object_token_index depth
        else (r.1, { r.2 with pos := r.2.pos + 1 })
    else (JTOK_PARSE_STATUS_PARTIAL_TOKEN, { p with pos := start })
termination_by structural fuel

/-- Modelled from the spec (jtok_array.c is not under src/), section 4.5:
jtok_parse_array allocates one ARRAY token at '[' with parent = toksuper,
makes the array the superior token, and runs the element state machine. On
success the parser position is left ON the closing bracket so the caller's
loop increment advances past it. -/
def jtok_parse_array (fuel : Nat) (p : jtok_parser_t) (depth : Nat) :
    JTOK_PARSE_STATUS_t × jtok_parser_t :=
  match fuel with
  | 0 => (JTOK_PARSE_STATUS_UNKNOWN_ERROR, p)
  | fuel + 1 =>
    if depth > JTOK_MAX_RECURSE_DEPTH then (JTOK_PARSE_STATUS_NEST_DEPTH_EXCEEDED, p)
    else if cAt p.json p.pos ≠ '[' then (JTOK_PARSE_STATUS_NON_ARRAY, p)
    else
      match jtok_alloc_token p with
      | none => (JTOK_PARSE_STATUS_NOMEM, p)
      | some (p1, idx) =>
        let start := p.pos
        let p2 := { p1 with
          tkn_pool := p1.tkn_pool.set idx
            { tokAtN p1.tkn_pool idx with
                type := JTOK_ARRAY, start := p1.pos, end_ := INVALID_ARRAY_INDEX,
                parent := p1.toksuper },
          toksuper := (idx : Int), pos := p1.pos + 1, last_child := NO_CHILD_IDX }
        jtok_parse_array_loop fuel p2 true start idx depth
termination_by structural fuel

/-- Modelled from the spec (jtok_array.c is not under src/), section 4.5: the
array element loop. The boolean state is "a value may come next" (true covers
EXPECT_VALUE_OR_END just after '[' and EXPECT_VALUE just after a comma --
whether an end is allowed is tracked by last_child = NO_CHILD_IDX, which
distinguishes them); false is EXPECT_COMMA_OR_END. Homogeneity: attaching an
element whose type differs from the first element's type is MIXED_ARRAY. -/
def jtok_parse_array_loop (fuel : Nat) (p : jtok_parser_t) (expectValue : Bool)
    (start : Nat) (arrIdx : Nat) (depth : Nat) :
    JTOK_PARSE_STATUS_t × jtok_parser_t :=
  match fuel with
  | 0 => (JTOK_PARSE_STATUS_UNKNOWN_ERROR, p)
  | fuel + 1 =>
    if p.pos < p.json_len ∧ cAt p.json p.pos ≠ NUL then
      let c := cAt p.json p.pos
      if c = '\t' ∨ c = '\r' ∨ c = '\n' ∨ c = ' ' then
        jtok_parse_array_loop fuel { p with pos := p.pos + 1 } expectValue start arrIdx depth
      else if c = ']' then
        if expectValue ∧ p.last_child ≠ NO_CHILD_IDX then
          (JTOK_PARSE_STATUS_STRAY_COMMA, p)
        else
          let arr := tokAtN p.tkn_pool arrIdx
          let pool1 := p.tkn_pool.set arrIdx { arr with end_ := ((p.pos + 1 : Nat) : Int) }
          let pool2 :=
            if p.last_child ≠ NO_CHILD_IDX then
              setTokI pool1 p.last_child (fun t => { t with sibling := NO_SIBLING_IDX })
            else pool1
          (JTOK_PARSE_STATUS_OK,
           { p with tkn_pool := pool2, toksuper := arr.parent, last_child := NO_CHILD_IDX })
      else if c = ',' then
        if expectValue then (JTOK_PARSE_STATUS_STRAY_COMMA, p)
        else jtok_parse_array_loop fuel { p with pos := p.pos + 1 } true start arrIdx depth
      else if c = '{' ∨ c = '[' ∨ c = '"' ∨ isPrimitiveLead c then
        if ¬ expectValue then (JTOK_PARSE_STATUS_INVAL, p)
        else
          let childIdx := p.toknext
          let r :=
            if c = '{' then jtok_parse_object fuel p (depth + 1)
            else if c = '[' then jtok_parse_array fuel p (depth + 1)
            else if c = '"' then jtok_parse_string p
            else jtok_parse_primitive p
          if r.1 = JTOK_PARSE_STATUS_OK then
            let arr := tokAtN r.2.tkn_pool arrIdx
            if arr.size ≥ 1 ∧
               (tokAtN r.2.tkn_pool childIdx).type ≠ (tokAtN r.2.tkn_pool (arrIdx + 1)).type then
              (JTOK_STATUS_MIXED_ARRAY, r.2)
            else
              let pool1 :=
                if r.2.last_child ≠ NO_CHILD_IDX then
                  setTokI r.2.tkn_pool r.2.last_child
                    (fun t => { t with sibling := (childIdx : Int) })
                else r.2.tkn_pool
              let pool2 := setTokI pool1 (arrIdx : Int) (fun t => { t with size := t.size + 1 })
              jtok_parse_array_loop fuel
                { r.2 with tkn_pool := pool2, last_child := (childIdx : Int),
                           toksuper := (arrIdx : Int), pos := r.2.pos + 1 }
                false start arrIdx depth
          else (r.1, r.2)
      else (JTOK_PARSE_STATUS_INVAL, p)
    else (JTOK_PARSE_STATUS_PARTIAL_TOKEN, { p with pos := start })
termination_by structural fuel

end

/-- Skip leading bytes for which C-locale isspace holds (jtok.c lines
308-312); the NUL terminator stops the walk, so json_len + 1 iterations
always suffice. -/
def jtok_skip_ws (json : List Char) : Nat → Nat → Nat
  | pos, 0 => pos
  | pos, fuel + 1 => if isspaceC (cAt json pos) then jtok_skip_ws json (pos + 1) fuel else pos

/-- Recursion fuel for a top-level parse: generous bound on the total number
of loop iterations and sub-parser entries for an input of the given length
(each iteration advances pos or enters a sub-parser that does). -/
def jtok_fuel (len : Nat) : Nat := (len + 4) * (len + 4)

/-- The non-NULL path of jtok_parse (jtok.c lines 304-314): build a parser,
skip leading isspace bytes, and run the object parser at depth 0. Returns the
status together with the final parse context (the C caller retains the token
array the context wraps). -/
def jtok_parse_run (json : List Char) (size : Nat) : JTOK_PARSE_STATUS_t × jtok_parser_t :=
  let parser := jtok_new_parse_ctx json size
  let parser1 := { parser with pos := jtok_skip_ws json 0 (json.length + 1) }
  jtok_parse_object (jtok_fuel json.length) parser1 0

/-- jtok_parse (jtok.c lines 289-316). The token array argument is modelled
by whether it is non-NULL; its capacity is size. -/
def jtok_parse (json : Option (List Char)) (tkns_nonnull : Bool) (size : Nat) :
    JTOK_PARSE_STATUS_t :=
  match json with
  | none => JTOK_PARSE_STATUS_NULL_PARAM
  | some j =>
    if ¬ tkns_nonnull then JTOK_PARSE_STATUS_NULL_PARAM
    else if size < 1 then JTOK_PARSE_STATUS_NOMEM
    else (jtok_parse_run j size).1

/-! ## Concrete parses used by several claims -/

/-- The parse of the spec's concrete scenario 3 input (the object with keys a
and b bound to 1 and 2) with capacity 5. -/
def run_ab : JTOK_PARSE_STATUS_t × jtok_parser_t :=
  jtok_parse_run ("\x7b\"a\":1,\"b\":2\x7d".toList) 5

/-- The token pool produced by run_ab. -/
def pool_ab : List jtok_tkn := run_ab.2.tkn_pool

/-- The parse of the object binding key k to the number 12, capacity 3. -/
def run_k12 : JTOK_PARSE_STATUS_t × jtok_parser_t :=
  jtok_parse_run ("\x7b\"k\":12\x7d".toList) 3

/-! ## C1 -/

/-- C1: the claim states that jtok_toktokcmp, on equal types, invokes the
comparator dispatched on a.type and returns that comparator's boolean result.
The code instead executes "return tokcmp_funcs[tkn1->type];", returning the
function pointer itself converted to bool. Failing input: tokens 2 and 4 of
the parsed pool (the primitives 1 and 2): both PRIMITIVE, payloads differ, so
the dispatched comparator returns false, yet jtok_toktokcmp returns true. -/
theorem C1_toktokcmp_returns_pointer_not_result :
    (tokAtN pool_ab 2).type = JTOK_PRIMITIVE ∧
    (tokAtN pool_ab 4).type = JTOK_PRIMITIVE ∧
    payloadOf (tokAtN pool_ab 2) ≠ payloadOf (tokAtN pool_ab 4) ∧
    tokcmp_funcs JTOK_PRIMITIVE = some jtok_toktokcmp_primitive ∧
    jtok_toktokcmp_primitive pool_ab 2 pool_ab 4 = false ∧
    jtok_toktokcmp pool_ab 2 pool_ab 4 = true :=
  ⟨by decide, by decide, by decide, rfl, by decide, by decide⟩

/-! ## C2 -/

/-- C2: the claim (and the comment block at jtok_object.c lines 190-200)
states that a trailing comma inside an object must be rejected with OBJ_NOKEY
or STRAY_COMMA; but the '}' handler of the EXPECT_KEY state closes the object
without checking for a preceding comma, so jtok_parse accepts the trailing
comma input and returns OK. -/
theorem C2_trailing_comma_accepted :
    jtok_parse (some ("\x7b\"a\":1,\x7d".toList)) true 20 = JTOK_PARSE_STATUS_OK ∧
    JTOK_PARSE_STATUS_OK ≠ JTOK_PARSE_STATUS_OBJ_NOKEY ∧
    JTOK_PARSE_STATUS_OK ≠ JTOK_PARSE_STATUS_STRAY_COMMA := by decide

/-! ## C3 -/

/-- C3: the claim states that jtok_obj_has_key returns the token-array index
of the matching key (3 for needle b after parsing the scenario 3 input). The
code computes key_idx = key_tkn - tkns (already the element index, 3) and
then divides it by sizeof(jtok_tkn_t) a second time, returning 3 / 32 = 0. -/
theorem C3_obj_has_key_wrong_index :
    run_ab.1 = JTOK_PARSE_STATUS_OK ∧
    (tokAtN pool_ab 0).type = JTOK_OBJECT ∧
    (tokAtN pool_ab 0).size = 2 ∧
    (tokAtN pool_ab 1).sibling = 3 ∧
    (tokAtN pool_ab 3).type = JTOK_STRING ∧
    payloadOf (tokAtN pool_ab 3) = ['b'] ∧
    jtok_tokcmp (some ['b']) (tokAtN pool_ab 3) = true ∧
    jtok_obj_has_key pool_ab 0 (some ['b']) = 0 ∧
    (0 : Int) ≠ 3 := by decide

/-! ## C4 -/

/-- The isValidJson contract exactly as the claim words it: a conjunction of
the count bound, the OBJECT check on tokens[0] and the tokens[1] shape. -/
def isValidJson_claimed (tks : List jtok_tkn) (tcnt : Nat) : Prop :=
  2 ≤ tcnt ∧ (tokAtN tks 0).type = JTOK_OBJECT ∧
    ((tcnt = 2 ∧ (tokAtN tks 1).type = JTOK_ARRAY) ∨
     (2 < tcnt ∧ (tokAtN tks 1).type = JTOK_STRING))

/-- A three-token array whose first token is an OBJECT and whose second is an
ARRAY: isValidJson accepts it although the claimed contract rejects it. -/
def c4_tokens : List jtok_tkn :=
  [{ type := JTOK_OBJECT, start := 0, end_ := 2, size := 0, parent := -1,
     sibling := -1, json := none },
   { type := JTOK_ARRAY, start := 0, end_ := 1, size := 0, parent := 0,
     sibling := -1, json := none },
   { type := JTOK_PRIMITIVE, start := 0, end_ := 1, size := 0, parent := 1,
     sibling := -1, json := none }]

/-- C4 counterexample: with count 3, tokens[0] an OBJECT and tokens[1] an
ARRAY (not a STRING), the claimed iff demands false but isValidJson returns
true -- the code never resets isValid once the OBJECT check sets it, so its
checks combine as a disjunction, not the claimed conjunction. -/
theorem C4_counterexample :
    isValidJson (some c4_tokens) 3 = true ∧ ¬ isValidJson_claimed c4_tokens 3 := by
  refine ⟨by decide, ?_⟩
  unfold isValidJson_claimed
  decide

/-- C4 (amended): isValidJson(tokens, count) returns true iff count >= 2 and
at least one of the following holds: tokens[0].type == OBJECT, or count == 2
and tokens[1].type == ARRAY, or count > 2 and tokens[1].type == STRING (the
three checks form a disjunction). -/
theorem C4_isValidJson_disjunction (tks : List jtok_tkn) (tcnt : Nat) :
    isValidJson (some tks) tcnt = true ↔
      (2 ≤ tcnt ∧ ((tokAtN tks 0).type = JTOK_OBJECT ∨
        (tcnt = 2 ∧ (tokAtN tks 1).type = JTOK_ARRAY) ∨
        (2 < tcnt ∧ (tokAtN tks 1).type = JTOK_STRING))) := by
  unfold isValidJson
  by_cases h1 : 1 < tcnt
  · simp only [if_pos h1]
    by_cases h2 : tcnt = 2
    · subst h2
      simp [Bool.or_eq_true, decide_eq_true_eq]
    · have h3 : 2 < tcnt := by omega
      simp only [if_neg h2, if_pos h3, Bool.or_eq_true, decide_eq_true_eq]
      constructor
      · rintro (h | h)
        · exact ⟨by omega, Or.inl h⟩
        · exact ⟨by omega, Or.inr (Or.inr ⟨h3, h⟩)⟩
      · rintro ⟨-, h | ⟨hc, -⟩ | ⟨-, h⟩⟩
        · exact Or.inl h
        · omega
        · exact Or.inr h
  · simp only [if_neg h1]
    constructor
    · intro h; exact absurd h (by simp)
    · intro h; omega

/-! ## C5 -/

/-- C5: the claim states that jtok_tokcmp(s, t) is true iff s is byte-wise
equal to the token payload, so a strict prefix of the other compares unequal.
The code bounds strncmp by the LARGER of the token length and strlen(s), so
when the payload is a strict prefix of s and the input bytes that follow the
payload happen to match the rest of s, it reports equality. Failing input:
token 2 of the parsed pool (payload the two bytes 1, 2 of the input ending in
12 followed by the closing brace) compared with the three-byte literal made
of 1, 2 and a closing brace. -/
theorem C5_tokcmp_accepts_longer_literal :
    run_k12.1 = JTOK_PARSE_STATUS_OK ∧
    payloadOf (tokAtN run_k12.2.tkn_pool 2) = ['1', '2'] ∧
    jtok_tokcmp (some ['1', '2', '\x7d']) (tokAtN run_k12.2.tkn_pool 2) = true ∧
    (['1', '2', '\x7d'] : List Char) ≠ payloadOf (tokAtN run_k12.2.tkn_pool 2) := by
  decide

/-- A primitive lead byte is none of the other characters the object
parser's switch tests for (helper for the step-level theorems below). -/
theorem primLead_ne (c : Char) (h : isPrimitiveLead c = true) :
    c ≠ '{' ∧ c ≠ '[' ∧ c ≠ '}' ∧ c ≠ '"' ∧
    ¬ (c = '\t' ∨ c = '\r' ∨ c = '\n' ∨ c = ' ') ∧ c ≠ ':' ∧ c ≠ ',' := by
  simp only [isPrimitiveLead, decide_eq_true_eq] at h
  rcases h with h|h|h|h|h|h|h|h|h|h|h|h|h|h|h <;> subst h <;>
    refine ⟨by decide, by decide, by decide, by decide, by decide, by decide, by decide⟩

/-! ## C6 -/

/-- A parse context stopped at a primitive lead byte whose superior token is
a STRING key that already has a value bound (size 1). -/
def c6_ctx : jtok_parser_t :=
  { pos := 0, toknext := 2, toksuper := 1, json := ['1'], json_len := 1,
    last_child := -1,
    tkn_pool :=
      [{ type := JTOK_OBJECT, start := 0, end_ := -1, size := 1, parent := -1,
         sibling := -1, json := some ['1'] },
       { type := JTOK_STRING, start := 2, end_ := 3, size := 1, parent := 0,
         sibling := -1, json := some ['1'] }],
    pool_size := 2 }

/-- C6 counterexample: in the EXPECT_VALUE state with a bound key (size 1), a
primitive lead byte does not produce KEY_MULTIPLE_VAL as the claim states for
every value lead: the primitive branch reports INVAL instead. -/
theorem C6_counterexample :
    isPrimitiveLead (cAt c6_ctx.json c6_ctx.pos) = true ∧
    (tokAtI c6_ctx.tkn_pool c6_ctx.toksuper).type = JTOK_STRING ∧
    (tokAtI c6_ctx.tkn_pool c6_ctx.toksuper).size ≠ 0 ∧
    stepStatus (jtok_object_step c6_ctx objexpect.OBJECT_VALUE 0 0) =
      some JTOK_PARSE_STATUS_INVAL ∧
    JTOK_PARSE_STATUS_INVAL ≠ JTOK_PARSE_STATUS_KEY_MULTIPLE_VAL := by
  decide

/-- C6 (amended): in the object parser's EXPECT_VALUE state with the current
key a STRING whose size is nonzero, only the string lead checks the key's
size and fails with KEY_MULTIPLE_VAL; a primitive lead fails with INVAL
(resetting pos to the object's start); and the leads for a nested object or
array invoke the corresponding sub-parser without any size check. -/
theorem C6_value_lead_size_check (p : jtok_parser_t) (start objIdx : Nat)
    (hkey : (tokAtI p.tkn_pool p.toksuper).type = JTOK_STRING)
    (hsz : (tokAtI p.tkn_pool p.toksuper).size ≠ 0) :
    (cAt p.json p.pos = '"' →
      jtok_object_step p objexpect.OBJECT_VALUE start objIdx =
        ObjAct.fail JTOK_PARSE_STATUS_KEY_MULTIPLE_VAL p) ∧
    (isPrimitiveLead (cAt p.json p.pos) = true →
      jtok_object_step p objexpect.OBJECT_VALUE start objIdx =
        ObjAct.fail JTOK_PARSE_STATUS_INVAL { p with pos := start }) ∧
    (cAt p.json p.pos = '{' →
      jtok_object_step p objexpect.OBJECT_VALUE start objIdx = ObjAct.callObject) ∧
    (cAt p.json p.pos = '[' →
      jtok_object_step p objexpect.OBJECT_VALUE start objIdx = ObjAct.callArray) := by
  refine ⟨?_, ?_, ?_, ?_⟩ <;> intro hc
  · simp [jtok_object_step, hc, hkey, hsz]
  · obtain ⟨n1, n2, n3, n4, n5, n6, n7⟩ := primLead_ne _ hc
    simp [jtok_object_step, n1, n2, n3, n4, n5, n6, n7, hc, hkey, hsz]
  · simp [jtok_object_step, hc]
  · simp [jtok_object_step, hc]

/-- A parse context stopped at a string lead byte whose superior token is a
STRING key that already has a value bound. -/
def c6w_ctx : jtok_parser_t :=
  { pos := 0, toknext := 2, toksuper := 1, json := ['"'], json_len := 1,
    last_child := -1,
    tkn_pool :=
      [{ type := JTOK_OBJECT, start := 0, end_ := -1, size := 1, parent := -1,
         sibling := -1, json := some ['"'] },
       { type := JTOK_STRING, start := 2, end_ := 3, size := 1, parent := 0,
         sibling := -1, json := some ['"'] }],
    pool_size := 2 }

/-- C6 witness: the amended theorem applied at a concrete context with a
string lead and a bound key yields KEY_MULTIPLE_VAL. -/
theorem C6_witness :
    (tokAtI c6w_ctx.tkn_pool c6w_ctx.toksuper).type = JTOK_STRING ∧
    (tokAtI c6w_ctx.tkn_pool c6w_ctx.toksuper).size ≠ 0 ∧
    jtok_object_step c6w_ctx objexpect.OBJECT_VALUE 0 0 =
      ObjAct.fail JTOK_PARSE_STATUS_KEY_MULTIPLE_VAL c6w_ctx :=
  ⟨by decide, by decide,
   (C6_value_lead_size_check c6w_ctx 0 0 (by decide) (by decide)).1 (by decide)⟩

/-! ## C7 -/

/-- C7 counterexample: an unquoted key beginning with a digit is rejected,
but with KEY_NO_VAL, not the OBJ_NOKEY the claim states: the primitive-lead
branch in a non-VALUE state reports KEY_NO_VAL. -/
theorem C7_counterexample :
    jtok_parse (some ("\x7b5\x7d".toList)) true 20 = JTOK_PARSE_STATUS_KEY_NO_VAL ∧
    JTOK_PARSE_STATUS_KEY_NO_VAL ≠ JTOK_PARSE_STATUS_OBJ_NOKEY := by
  decide

/-- C7 (amended): in the object parser's EXPECT_KEY state, any byte that does
not start a string and is not whitespace or a closing brace is rejected, but
the status depends on the byte: an opening brace, opening bracket or comma
yields OBJ_NOKEY; a primitive lead byte yields KEY_NO_VAL; a colon and every
other byte yield INVAL. -/
theorem C7_key_state_rejects (p : jtok_parser_t) (start objIdx : Nat)
    (hq : cAt p.json p.pos ≠ '"')
    (hw : ¬ (cAt p.json p.pos = '\t' ∨ cAt p.json p.pos = '\r' ∨
             cAt p.json p.pos = '\n' ∨ cAt p.json p.pos = ' '))
    (hb : cAt p.json p.pos ≠ '}') :
    ((cAt p.json p.pos = '{' ∨ cAt p.json p.pos = '[' ∨ cAt p.json p.pos = ',') →
      stepStatus (jtok_object_step p objexpect.OBJECT_KEY start objIdx) =
        some JTOK_PARSE_STATUS_OBJ_NOKEY) ∧
    (isPrimitiveLead (cAt p.json p.pos) = true →
      stepStatus (jtok_object_step p objexpect.OBJECT_KEY start objIdx) =
        some JTOK_PARSE_STATUS_KEY_NO_VAL) ∧
    (cAt p.json p.pos ≠ '{' → cAt p.json p.pos ≠ '[' → cAt p.json p.pos ≠ ',' →
      isPrimitiveLead (cAt p.json p.pos) = false →
      stepStatus (jtok_object_step p objexpect.OBJECT_KEY start objIdx) =
        some JTOK_PARSE_STATUS_INVAL) := by
  refine ⟨?_, ?_, ?_⟩
  · intro hc
    rcases hc with hc|hc|hc <;> simp [jtok_object_step, stepStatus, hc]
  · intro hc
    obtain ⟨n1, n2, n3, n4, n5, n6, n7⟩ := primLead_ne _ hc
    simp [jtok_object_step, stepStatus, n1, n2, n3, n4, n5, n6, n7, hc]
  · intro h1 h2 h3 hp
    by_cases hcol : cAt p.json p.pos = ':' <;>
      simp [jtok_object_step, stepStatus, h1, h2, h3, hp, hq, hw, hb, hcol]

/-- A parse context stopped at a comma, for the C7 witness. -/
def c7w_ctx : jtok_parser_t :=
  { pos := 0, toknext := 1, toksuper := 0, json := [','], json_len := 1,
    last_child := -1,
    tkn_pool :=
      [{ type := JTOK_OBJECT, start := 0, end_ := -1, size := 0, parent := -1,
         sibling := -1, json := some [','] }],
    pool_size := 1 }

/-- C7 witness: the amended theorem applied at a concrete context with a
comma in the EXPECT_KEY state yields OBJ_NOKEY. -/
theorem C7_witness :
    cAt c7w_ctx.json c7w_ctx.pos = ',' ∧
    stepStatus (jtok_object_step c7w_ctx objexpect.OBJECT_KEY 0 0) =
      some JTOK_PARSE_STATUS_OBJ_NOKEY :=
  ⟨by decide,
   (C7_key_state_rejects c7w_ctx 0 0 (by decide) (by decide) (by decide)).1
     (Or.inr (Or.inr (by decide)))⟩

/-! ## C8 -/

/-- C8: jtok_parse returns NULL_PARAM when the input or the token array is
NULL; otherwise NOMEM when the capacity is below 1; otherwise, after skipping
leading C-locale whitespace, NON_OBJECT when the first non-whitespace byte is
not an opening brace. -/
theorem C8_parse_guards :
    (∀ t size, jtok_parse none t size = JTOK_PARSE_STATUS_NULL_PARAM) ∧
    (∀ j size, jtok_parse (some j) false size = JTOK_PARSE_STATUS_NULL_PARAM) ∧
    (∀ j, jtok_parse (some j) true 0 = JTOK_PARSE_STATUS_NOMEM) ∧
    (∀ (j : List Char) size, 1 ≤ size →
      cAt j (jtok_skip_ws j 0 (j.length + 1)) ≠ '{' →
      jtok_parse (some j) true size = JTOK_PARSE_STATUS_NON_OBJECT) := by
  refine ⟨fun _ _ => rfl, fun _ _ => rfl, fun _ => rfl, ?_⟩
  intro j size hsz hbrace
  have hpos : 0 < jtok_fuel j.length := Nat.mul_pos (by omega) (by omega)
  obtain ⟨k, hk⟩ := Nat.exists_eq_succ_of_ne_zero (Nat.pos_iff_ne_zero.mp hpos)
  have hlt : ¬ size < 1 := by omega
  simp only [jtok_parse, jtok_parse_run, jtok_new_parse_ctx, hk, hlt,
    Bool.not_true, if_false, if_neg hlt, jtok_parse_object]
  simp [hbrace, JTOK_MAX_RECURSE_DEPTH]

/-- C8 witness: the guard theorem applied at concrete inputs. -/
theorem C8_witness :
    jtok_parse none true 1 = JTOK_PARSE_STATUS_NULL_PARAM ∧
    jtok_parse (some ['x']) false 1 = JTOK_PARSE_STATUS_NULL_PARAM ∧
    jtok_parse (some ['x']) true 0 = JTOK_PARSE_STATUS_NOMEM ∧
    (1 : Nat) ≤ 1 ∧
    cAt ['x'] (jtok_skip_ws ['x'] 0 2) ≠ '{' ∧
    jtok_parse (some ['x']) true 1 = JTOK_PARSE_STATUS_NON_OBJECT :=
  ⟨C8_parse_guards.1 true 1, C8_parse_guards.2.1 ['x'] 1, C8_parse_guards.2.2.1 ['x'],
   by decide, by decide, C8_parse_guards.2.2.2 ['x'] 1 (by decide) (by decide)⟩

/-! ## C9 -/

/-- C9: for every populated token (type PRIMITIVE, OBJECT, ARRAY or STRING),
jtok_toktokcmp(a, a) returns true: the types are equal and the dispatch table
entry for each of the four types is non-NULL, so the returned pointer-as-bool
is true. -/
theorem C9_toktokcmp_reflexive (pool : List jtok_tkn) (i : Nat)
    (h : (tokAtN pool i).type = JTOK_PRIMITIVE ∨ (tokAtN pool i).type = JTOK_OBJECT ∨
         (tokAtN pool i).type = JTOK_ARRAY ∨ (tokAtN pool i).type = JTOK_STRING) :
    jtok_toktokcmp pool i pool i = true := by
  unfold jtok_toktokcmp
  rw [if_pos rfl]
  rcases h with h|h|h|h <;> rw [h] <;> rfl

/-- C9 witness: the reflexivity theorem applied to a PRIMITIVE token of the
parsed pool. -/
theorem C9_witness :
    (tokAtN pool_ab 2).type = JTOK_PRIMITIVE ∧
    jtok_toktokcmp pool_ab 2 pool_ab 2 = true :=
  ⟨by decide, C9_toktokcmp_reflexive pool_ab 2 (Or.inl (by decide))⟩

/-! ## C10 -/

/-- C10: for every token whose type is not OBJECT, jtok_obj_has_key returns
INVALID_ARRAY_INDEX; the result does not depend on any other token of the
pool (the pool is universally quantified and only the addressed token's type
is constrained). -/
theorem C10_obj_has_key_non_object (pool : List jtok_tkn) (objIdx : Nat)
    (k : Option (List Char))
    (h : (tokAtN pool objIdx).type ≠ JTOK_OBJECT) :
    jtok_obj_has_key pool objIdx k = INVALID_ARRAY_INDEX := by
  unfold jtok_obj_has_key
  simp [h]

/-- C10 witness: the theorem applied to the STRING token at index 1 of the
parsed pool. -/
theorem C10_witness :
    (tokAtN pool_ab 1).type ≠ JTOK_OBJECT ∧
    jtok_obj_has_key pool_ab 1 (some ['b']) = INVALID_ARRAY_INDEX :=
  ⟨by decide, C10_obj_has_key_non_object pool_ab 1 (some ['b']) (by decide)⟩
